import Mathlib

/-!
Verification of the btcstake timelock transaction engine.

All definitions are shallow embeddings of the Python source:
amounts are modelled as integer satoshis (the source works on
Decimal values quantized to 8 decimal places, which are exactly
the integer multiples of 1e-8 BTC), hex strings as lists of hex
digit values (each < 16), and calls to the external bitcoin-cli
collaborator (fee-rate estimates, UTXO lookups, decodescript
results, current time) as explicit parameters.
-/

namespace BtcStake

/-! ### Hex digit machinery

The source formats numbers with Python `format(n, "08x")` (big-endian
hex, left padded with zeros to a minimum width) and parses them back
with `int(s, 16)`.  We model hex strings as lists of digit values.
The digit extraction recurses on a fuel argument bounded by the number
itself, which always dominates the digit count. -/

/-- Little-endian hex digits of n, recursion fueled; empty for 0. -/
def hexDigitsRevFuel : ℕ → ℕ → List ℕ
  | 0, _ => []
  | fuel + 1, n => if n = 0 then [] else n % 16 :: hexDigitsRevFuel fuel (n / 16)

/-- Little-endian hex digits of n (empty for 0). -/
def hexDigitsRev (n : ℕ) : List ℕ := hexDigitsRevFuel n n

/-- Python format(n, s) with s the 0-padded minimum width w in hex:
big-endian digits, at least w of them. -/
def hexMin (w n : ℕ) : List ℕ :=
  List.replicate (w - (hexDigitsRev n).length) 0 ++ (hexDigitsRev n).reverse

/-- Python int(s, 16) on a big-endian hex digit list. -/
def fromHex (l : List ℕ) : ℕ := l.foldl (fun a d => a * 16 + d) 0

/-- Value of a little-endian hex digit list. -/
def fromHexRev (l : List ℕ) : ℕ := l.foldr (fun d a => a * 16 + d) 0

/-! ### Decimal truncation

Python int(Decimal d) truncates toward zero.  Decimal values are
modelled as rationals. -/

/-- Python int() applied to an exact rational: truncation toward zero. -/
def truncQ (q : ℚ) : ℤ := q.num.tdiv (q.den : ℤ)

/-! ### Decoded script info (src/src/validation.py, src/src/tx.py)

bitcoin-cli decodescript returns a type string and an asm token list;
the source parses the first asm token with int(), which raises on a
non-numeric token.  Tokens are either numeric or opcode/data symbols. -/

/-- One token of a decodescript asm rendering. -/
inductive Tok where
  | num : ℤ → Tok
  | sym : String → Tok
deriving DecidableEq

/-- Python int(token): some for numeric tokens, none models ValueError. -/
def tokInt : Tok → Option ℤ
  | Tok.num n => some n
  | Tok.sym _ => none

/-- Result of the external decodescript call, as consumed by the source. -/
structure ScriptInfo where
  stype : String
  asm : List Tok
  p2shAddress : String
  segwitAddress : String
deriving DecidableEq

/-- Locktime extraction int(script_info.asm.split()[0]) used by
create_raw_tx and build_spend_tx; none models the caught exception
(empty asm or non-numeric first token). -/
def asmLocktime (info : ScriptInfo) : Option ℤ :=
  match info.asm with
  | [] => none
  | t :: _ => tokInt t

/-- Validator.validate_script (src/src/validation.py lines 57-89).
Checks the decoded type is nonstandard and the asm has exactly five
elements; parses the first element as the locktime; on the lock path
(spend = false) requires now ≤ locktime ≤ now + 365 days, on the
spend path rejects a locktime still in the future.  Returns the
script info on success, none on any failure (the source prints and
returns None, and catches parse exceptions). -/
def validate_script (info : ScriptInfo) (now : ℤ) (spend : Bool) : Option ScriptInfo :=
  if info.stype ≠ "nonstandard" then none
  else if info.asm.length ≠ 5 then none
  else
    match asmLocktime info with
    | none => none
    | some locktime =>
      if ¬spend then
        if locktime < now then none
        else if locktime > now + 365 * 86400 then none
        else some info
      else
        if locktime > now then none
        else some info

/-! ### Fee calculation (src/src/tx.py lines 16-25)

calculate_fees reads a fee rate (BTC per kvB, formatted to 8 decimal
places, modelled as a natural number of 1e-8 BTC units), multiplies by
the fixed size estimate 300, divides by 1000 and quantizes to 8
decimal places with Decimal's default ROUND_HALF_EVEN, then raises the
result to the minimum fee 0.00001001 BTC (1001 satoshi) if below it. -/

/-- Round x/10 to the nearest integer, ties to even (bankers rounding,
Decimal's default quantize mode). -/
def bankersDiv10 (x : ℕ) : ℕ :=
  if x % 10 < 5 then x / 10
  else if 5 < x % 10 then x / 10 + 1
  else if x / 10 % 2 = 0 then x / 10 else x / 10 + 1

/-- Transaction.calculate_fees in satoshi: rate * 300 / 1000 rounded
half-even to a whole satoshi, then clamped below at 1001 satoshi.
rate * 300 / 1000 = rate * 3 / 10 exactly. -/
def calculate_fees (rateSats : ℕ) : ℕ :=
  if bankersDiv10 (rateSats * 3) < 1001 then 1001 else bankersDiv10 (rateSats * 3)

/-! ### UTXO validation and summation (src/src/validation.py 30-55,
src/src/tx.py 41-54)

Each gettxout lookup either returns a value (in satoshi) or nothing
(missing or spent); the per-entry regex check and the txid strings are
string-level and external to the arithmetic modelled here. -/

/-- Sum the looked-up UTXO values; none if any lookup failed. -/
def sumUtxos : List (Option ℤ) → Option ℤ
  | [] => some 0
  | none :: _ => none
  | some v :: rest => (sumUtxos rest).map (v + ·)

/-- Validator.validate_utxos: every input must resolve and the total
must cover the requested amount. -/
def validate_utxos (utxoInfos : List (Option ℤ)) (amount : ℤ) : Bool :=
  match sumUtxos utxoInfos with
  | none => false
  | some total => decide (amount ≤ total)

/-! ### Lock transaction assembly (src/src/tx.py 27-98) -/

/-- One transaction input as assembled by the source (txid and
scriptPubKey hex kept as strings). -/
structure TxIn where
  txid : String
  vout : ℕ
  scriptPubKey : String
  sequence : ℕ
deriving DecidableEq

/-- One entry of the outputs dict passed to createrawtransaction:
either an address paying entry (value in satoshi) or the data
(OP_RETURN) entry holding the payload hex digits. -/
inductive TxOut where
  | pay : String → ℤ → TxOut
  | data : List ℕ → TxOut
deriving DecidableEq

/-- The createrawtransaction call assembled by Transaction.create_raw_tx:
inputs (sequence forced to 0xfffffffe), outputs, the replaceable flag
and the transaction-level locktime. -/
structure RawTxParams where
  inputs : List TxIn
  outputs : List TxOut
  replaceable : Bool
  locktime : ℤ
deriving DecidableEq

/-- Transaction.create_raw_tx (src/src/tx.py lines 79-98): parses the
locktime from the redeem script asm, sets every input sequence to
0xfffffffe, and creates the raw transaction with that locktime and
replaceable = not use_p2sh.  none models the caught exception when the
asm has no numeric first token. -/
def create_raw_tx (info : ScriptInfo) (inputs : List TxIn) (outputs : List TxOut)
    (use_p2sh : Bool) : Option RawTxParams :=
  match asmLocktime info with
  | none => none
  | some locktime =>
    some { inputs := inputs.map (fun i => { i with sequence := 0xfffffffe }),
           outputs := outputs,
           replaceable := !use_p2sh,
           locktime := locktime }

/-- Transaction.build_transaction (src/src/tx.py lines 27-77), up to
the createrawtransaction call (signing is an external rpc call).
addrOk is the outcome of the string-level change-address regex check;
utxoInfos are the gettxout values for the requested utxo list (the
same external view serves the validator pass and the input-building
loop); inputs is the input list assembled from those lookups; rateSats
the external fee-rate estimate; now the external current time.
Outputs, in dict insertion order: locked output (p2sh or segwit
address of the redeem script) for amount, a change output only when
change > 546 satoshi, then the data output.  Addresses are assumed
distinct (the source stores outputs in a dict keyed by address). -/
def build_transaction (addrOk : Bool) (utxoInfos : List (Option ℤ))
    (amountSats : ℤ) (changeAddress : String) (opReturnData : List ℕ)
    (info : ScriptInfo) (rateSats : ℕ) (now : ℤ) (use_p2sh : Bool)
    (inputs : List TxIn) : Option RawTxParams :=
  if ¬addrOk then none
  else if ¬validate_utxos utxoInfos amountSats then none
  else if (validate_script info now false).isNone then none
  else
    match sumUtxos utxoInfos with
    | none => none
    | some totalInput =>
      let fee : ℤ := calculate_fees rateSats
      let change := totalInput - amountSats - fee
      if change < 0 then none
      else
        let lockAddress := if use_p2sh then info.p2shAddress else info.segwitAddress
        let outputs := [TxOut.pay lockAddress amountSats]
          ++ (if change > 546 then [TxOut.pay changeAddress change] else [])
          ++ [TxOut.data opReturnData]
        create_raw_tx info inputs outputs use_p2sh

/-! ### Unlock transaction (src/src/tx.py 238-359)

Transaction.build_spend_tx works in Decimal BTC; values are kept as
exact rationals here (the source does not quantize on this path).
The final signing call is the external rpc; the embedding covers the
transaction assembled and handed to createrawtransaction. -/

/-- The single-input single-output unlock transaction assembled by
Transaction.build_spend_tx before signing. -/
structure SpendTx where
  txid : String
  vout : ℕ
  sequence : ℕ
  outAddress : String
  outValue : ℚ
  locktime : ℤ
deriving DecidableEq

/-- Transaction.build_spend_tx (src/src/tx.py lines 238-359) up to the
createrawtransaction call.  utxoValue is the gettxout value in BTC,
feeRate the estimatesmartfee feerate in BTC per kvB, use_p2sh is
derived from the looked-up scriptPubKey type.  The inline fee model of
this path is rate * size / 1000000 with size 300 for p2sh and 200 for
p2wsh; the build fails (none) when utxoValue - fee ≤ 0. -/
def build_spend_tx (txid : String) (vout : ℕ) (utxoValue : ℚ)
    (info : ScriptInfo) (address : String) (feeRate : ℚ)
    (use_p2sh : Bool) : Option SpendTx :=
  match asmLocktime info with
  | none => none
  | some locktime =>
    let txSize : ℚ := if use_p2sh then 300 else 200
    let fee := feeRate * txSize / 1000000
    let spendAmount := utxoValue - fee
    if spendAmount ≤ 0 then none
    else
      some { txid := txid, vout := vout, sequence := 0xfffffffe,
             outAddress := address, outValue := spendAmount,
             locktime := locktime }

/-! ### python-bitcoinlib spend signers
(src/src/spend_p2wsh.py, src/src/spend_p2sh.py)

list(CScript(bytes)) yields pushed byte strings and opcode values; the
signature and witness assembly are elliptic-curve operations on the
external library and are not value-relevant here -- the embedding
covers the transaction skeleton (input, output value, nLockTime) that
gets serialized. -/

/-- One parsed CScript element: a data push or an opcode value. -/
inductive ScriptElem where
  | push : List ℕ → ScriptElem
  | op : ℕ → ScriptElem
deriving DecidableEq

def OP_CHECKLOCKTIMEVERIFY : ℕ := 0xb1

/-- Value of a little-endian byte list (int.from_bytes little). -/
def fromBytesLE (l : List ℕ) : ℕ := l.foldr (fun b a => a * 256 + b) 0

/-- The transaction skeleton serialized by _create_and_sign_p2wsh_tx /
_create_and_sign_p2sh_tx: one input with sequence 0xFFFFFFFE, one
output of amount - fee (a possibly negative machine integer), and
nLockTime set from the parsed locktime when present (CMutableTransaction
defaults nLockTime to 0). -/
structure BtcLibTx where
  txid : String
  vout : ℕ
  sequence : ℕ
  outValue : ℤ
  outAddress : String
  nLockTime : ℕ
deriving DecidableEq

/-- _create_and_sign_p2wsh_tx (src/src/spend_p2wsh.py lines 9-46):
builds and serializes the transaction unconditionally -- there is no
check of fee against amount. -/
def create_and_sign_p2wsh_tx (utxo_txid : String) (utxo_vout : ℕ)
    (payto_address : String) (amount fee : ℤ) (lockts : Option ℕ) : BtcLibTx :=
  { txid := utxo_txid, vout := utxo_vout, sequence := 0xFFFFFFFE,
    outValue := amount - fee, outAddress := payto_address,
    nLockTime := lockts.getD 0 }

/-- The locktime recovery of sign_p2wsh_cltv_with_script /
sign_p2sh_cltv_with_script: lockts is set only when the script has at
least two elements, the first is a 4-byte push and the second is
OP_CHECKLOCKTIMEVERIFY; any other shape leaves lockts = None.  none
here models the uncaught TypeError raised by len() when the first of
two elements is an opcode (an int) rather than a push. -/
def parse_script_lockts (elems : List ScriptElem) : Option (Option ℕ) :=
  match elems with
  | [] => some none
  | [_] => some none
  | ScriptElem.op _ :: _ :: _ => none
  | ScriptElem.push bs :: e :: _ =>
    if bs.length = 4 ∧ e = ScriptElem.op OP_CHECKLOCKTIMEVERIFY then
      some (some (fromBytesLE bs))
    else some none

/-- sign_p2wsh_cltv_with_script (src/src/spend_p2wsh.py lines 71-91):
recovers the locktime (or not) from the script elements and always
proceeds to build and sign; none only on the TypeError crash case. -/
def sign_p2wsh_cltv_with_script (elems : List ScriptElem)
    (utxo_txid : String) (utxo_vout : ℕ) (payto_address : String)
    (amount fee : ℤ) : Option BtcLibTx :=
  match parse_script_lockts elems with
  | none => none
  | some lockts =>
    some (create_and_sign_p2wsh_tx utxo_txid utxo_vout payto_address amount fee lockts)

/-! ### Payload codec (src/opreturn.py lines 11-56)

The payload is a hex string; it is modelled as the list of its hex
digit values.  The beneficiary address argument is modelled as that
digit list after the string-level 0x prefix strip (has0x records
whether the prefix was present; lower() does not change digit
values). -/

/-- Hex digits of the fixed magic "46535450" (ascii FSTP). -/
def magicDigits : List ℕ := [4, 6, 5, 3, 5, 4, 5, 0]

/-- Hex digits of BB_CHAIN_ID = "1771". -/
def chainIdDigits : List ℕ := [1, 7, 7, 1]

/-- Hex digits of BB_CONTRACT =
"0000000000000000000000000000000000000800". -/
def contractDigits : List ℕ := List.replicate 37 0 ++ [8, 0, 0]

/-- construct_op_return (src/opreturn.py lines 11-56): requires the 0x
prefix and a 40 hex character address; truncates amount_btc * 1000 to
an integer (int() on the Decimal, truncation toward zero) and requires
it positive; requires days positive; then concatenates
magic, chain id, contract, address, format(amount_mbtc, "08x") and
format(days, "04x").  No upper bound on amount or days is checked. -/
def construct_op_return (has0x : Bool) (bb_addr : List ℕ) (days : ℤ)
    (amount_btc : ℚ) : Option (List ℕ) :=
  if ¬has0x then none
  else if bb_addr.length ≠ 40 then none
  else if truncQ (amount_btc * 1000) ≤ 0 then none
  else if days ≤ 0 then none
  else
    some (magicDigits ++ chainIdDigits ++ contractDigits ++ bb_addr
      ++ hexMin 8 (truncQ (amount_btc * 1000)).toNat ++ hexMin 4 days.toNat)

/-- Modelled from the spec: the repository contains no decode function
for the payload (only the encoder exists in src/opreturn.py and
src/src/script.py); the spec describes decode as the exact inverse of
the 52-byte wire layout magic(4) chain_id(2) contract(20)
beneficiary(20) amount_be(4) days_be(2), rejecting malformed magic and
length.  Offsets below are in hex digits (104 = 52 bytes). -/
def decode_op_return (payload : List ℕ) : Option (List ℕ × ℤ × ℚ) :=
  if payload.length ≠ 104 then none
  else if payload.take 8 ≠ magicDigits then none
  else
    some ((payload.drop 52).take 40,
      (fromHex ((payload.drop 100).take 4) : ℤ),
      (fromHex ((payload.drop 92).take 8) : ℚ) / 1000)

/-! ### Redeem script locktime validation (src/src/script.py 48-110) -/

/-- Script._validate_lock_time (src/src/script.py lines 91-100): true
when no ValueError is raised -- the locktime is not below the current
time, not below 500000000 and not above 0x7fffffff. -/
def validate_lock_time (lock_time current_time : ℕ) : Bool :=
  if lock_time < current_time then false
  else if lock_time < 500000000 then false
  else if lock_time > 0x7fffffff then false
  else true

/-- Script._validate_lock_time_hex (src/src/script.py lines 102-110):
true when int(hex, 16) & 0x80000000 is zero. -/
def validate_lock_time_hex (lock_time_hex : List ℕ) : Bool :=
  Nat.land (fromHex lock_time_hex) 0x80000000 == 0

/-- The locktime validation performed by Script.create_redeem_script
(src/src/script.py lines 60-64): both checks must pass, the hex form
being format(lock_time, "08x"). -/
def lock_time_accepted (lock_time current_time : ℕ) : Bool :=
  validate_lock_time lock_time current_time
    && validate_lock_time_hex (hexMin 8 lock_time)

/-! ## Concrete sample data used by witnesses and counterexamples -/

/-- A conforming decoded redeem script: CLTV locktime 1716000000,
compressed pubkey, the 5-element template shape. -/
def sampleScriptInfo : ScriptInfo :=
  { stype := "nonstandard",
    asm := [Tok.num 1716000000, Tok.sym "OP_CHECKLOCKTIMEVERIFY", Tok.sym "OP_DROP",
            Tok.sym "020ed9e628e3d032efa667b3cd325d502bed94658c3d012d41c2ab1b13390923",
            Tok.sym "OP_CHECKSIG"],
    p2shAddress := "3LockAddr", segwitAddress := "bc1qlockaddr" }

/-- A decoded script with five asm elements whose opcodes do not match
the CLTV template (OP_ADD in place of OP_CHECKLOCKTIMEVERIFY). -/
def scriptInfoWrongOpcode : ScriptInfo :=
  { stype := "nonstandard",
    asm := [Tok.num 600000000, Tok.sym "OP_ADD", Tok.sym "OP_DROP",
            Tok.sym "02bb", Tok.sym "OP_CHECKSIG"],
    p2shAddress := "x", segwitAddress := "y" }

/-- A decoded script with fewer than five asm elements. -/
def scriptInfoShort : ScriptInfo :=
  { stype := "nonstandard", asm := [Tok.num 1],
    p2shAddress := "x", segwitAddress := "y" }

/-- A decoded script whose type is not nonstandard. -/
def scriptInfoWrongType : ScriptInfo :=
  { stype := "witness_v0_scripthash",
    asm := [Tok.num 1, Tok.sym "a", Tok.sym "b", Tok.sym "c", Tok.sym "d"],
    p2shAddress := "x", segwitAddress := "y" }

/-! ## Helper lemmas for the hex machinery -/

theorem hexDigitsRevFuel_value :
    ∀ fuel n, n ≤ fuel → fromHexRev (hexDigitsRevFuel fuel n) = n := by
  intro fuel
  induction fuel with
  | zero => intro n h; interval_cases n; rfl
  | succ f ih =>
    intro n h
    by_cases h0 : n = 0
    · subst h0; simp [hexDigitsRevFuel, fromHexRev]
    · have hdiv : n / 16 ≤ f := by
        have : n / 16 < n := Nat.div_lt_self (Nat.pos_of_ne_zero h0) (by norm_num)
        omega
      simp only [hexDigitsRevFuel, h0, if_false, fromHexRev, List.foldr_cons]
      have := ih (n / 16) hdiv
      simp only [fromHexRev] at this
      rw [this]
      omega

theorem hexDigitsRevFuel_length :
    ∀ fuel n w, n ≤ fuel → n < 16 ^ w → (hexDigitsRevFuel fuel n).length ≤ w := by
  intro fuel
  induction fuel with
  | zero => intro n w h _; interval_cases n; simp [hexDigitsRevFuel]
  | succ f ih =>
    intro n w h hw
    by_cases h0 : n = 0
    · subst h0; simp [hexDigitsRevFuel]
    · cases w with
      | zero => simp at hw; omega
      | succ w =>
        have hdiv : n / 16 ≤ f := by
          have : n / 16 < n := Nat.div_lt_self (Nat.pos_of_ne_zero h0) (by norm_num)
          omega
        have hdivw : n / 16 < 16 ^ w := by
          rw [Nat.div_lt_iff_lt_mul (by norm_num : 0 < 16)]
          calc n < 16 ^ (w + 1) := hw
          _ = 16 ^ w * 16 := by ring
        simp only [hexDigitsRevFuel, h0, if_false, List.length_cons]
        have := ih (n / 16) w hdiv hdivw
        omega

theorem fromHex_replicate_zero (m : ℕ) (l : List ℕ) :
    fromHex (List.replicate m 0 ++ l) = fromHex l := by
  induction m with
  | zero => simp
  | succ k ih =>
    simpa [fromHex, List.replicate_succ] using ih

theorem fromHex_reverse (l : List ℕ) : fromHex l.reverse = fromHexRev l := by
  simp [fromHex, fromHexRev, List.foldl_reverse]

/-- Parsing back a padded hex rendering recovers the number. -/
theorem fromHex_hexMin (w n : ℕ) : fromHex (hexMin w n) = n := by
  rw [hexMin, fromHex_replicate_zero, fromHex_reverse]
  exact hexDigitsRevFuel_value n n (le_refl n)

/-- Numbers below 16^w render to exactly w digits. -/
theorem hexMin_length (w n : ℕ) (h : n < 16 ^ w) : (hexMin w n).length = w := by
  have hlen : (hexDigitsRev n).length ≤ w :=
    hexDigitsRevFuel_length n n w (le_refl n) h
  simp [hexMin, List.length_append, List.length_replicate]
  omega

theorem truncQ_intCast (k : ℤ) : truncQ (k : ℚ) = k := by
  simp [truncQ, Rat.num_intCast, Rat.den_intCast]

/-! ## Supporting lemmas -/

theorem bankersDiv10_step (x : ℕ) : bankersDiv10 x ≤ bankersDiv10 (x + 1) := by
  unfold bankersDiv10
  split_ifs <;> omega

theorem bankersDiv10_mono {x y : ℕ} (h : x ≤ y) : bankersDiv10 x ≤ bankersDiv10 y := by
  induction h with
  | refl => exact Nat.le_refl _
  | step _ ih => exact Nat.le_trans ih (bankersDiv10_step _)

theorem bankersDiv10_mul30 (k : ℕ) : bankersDiv10 (30 * k) = 3 * k := by
  unfold bankersDiv10
  split_ifs <;> omega

/-! ## C3: fee bounds and monotonicity -/

/-- C3 counterexample: the claim asserts the fee always lies in a
closed interval [MIN_FEE, MAX_FEE] for two fixed process-wide
constants.  The code only clamps from below; no finite upper bound on
calculate_fees exists, so no such MAX_FEE constant can. -/
theorem calculate_fees_no_upper_bound :
    ¬ ∃ maxFee : ℕ, ∀ rateSats : ℕ, calculate_fees rateSats ≤ maxFee := by
  rintro ⟨maxFee, hmax⟩
  have h := hmax (10 * (maxFee + 1001))
  have h30 : 10 * (maxFee + 1001) * 3 = 30 * (maxFee + 1001) := by ring
  rw [calculate_fees] at h
  simp only [h30, bankersDiv10_mul30] at h
  split_ifs at h <;> omega

/-- C3 amended: for every rate the returned fee is at least the fixed
minimum MIN_FEE = 1001 satoshi (0.00001001 BTC) and the fee is
monotonic non-decreasing in the rate; the code enforces no upper
bound. -/
theorem calculate_fees_min_fee_and_monotone :
    (∀ rateSats : ℕ, 1001 ≤ calculate_fees rateSats) ∧
    (∀ r s : ℕ, r ≤ s → calculate_fees r ≤ calculate_fees s) := by
  constructor
  · intro rateSats
    unfold calculate_fees
    split_ifs <;> omega
  · intro r s h
    unfold calculate_fees
    have hb : bankersDiv10 (r * 3) ≤ bankersDiv10 (s * 3) :=
      bankersDiv10_mono (by omega)
    split_ifs <;> omega

/-- C3 witness: the amended theorem applied at the concrete rates
20000 and 30000 sat/kvB. -/
theorem calculate_fees_min_fee_and_monotone_witness :
    1001 ≤ calculate_fees 20000 ∧ calculate_fees 20000 ≤ calculate_fees 30000 :=
  ⟨calculate_fees_min_fee_and_monotone.1 20000,
   calculate_fees_min_fee_and_monotone.2 20000 30000 (by norm_num)⟩

/-! ## C5: redeem script builder locktime boundary values -/

/-- C5: for each candidate locktime in {499999999, 500000000,
0x7fffffff, 0x80000000}, under the precondition that the candidate is
not below the current time, the builder's locktime validation (the
range check together with the sign-bit check on the 8-digit hex form)
accepts exactly 500000000 and 0x7fffffff and rejects the other two. -/
theorem lock_time_boundary_values (now : ℕ) :
    (now ≤ 499999999 → lock_time_accepted 499999999 now = false) ∧
    (now ≤ 500000000 → lock_time_accepted 500000000 now = true) ∧
    (now ≤ 2147483647 → lock_time_accepted 2147483647 now = true) ∧
    (now ≤ 2147483648 → lock_time_accepted 2147483648 now = false) := by
  refine ⟨?_, ?_, ?_, ?_⟩ <;> intro h <;>
    unfold lock_time_accepted validate_lock_time
  · rw [if_neg (by omega), if_pos (by norm_num)]
    rfl
  · rw [if_neg (by omega), if_neg (by norm_num), if_neg (by norm_num)]
    rw [Bool.true_and]
    decide
  · rw [if_neg (by omega), if_neg (by norm_num), if_neg (by norm_num)]
    rw [Bool.true_and]
    decide
  · rw [if_neg (by omega), if_neg (by norm_num), if_pos (by norm_num)]
    rfl

/-- C5 witness: the boundary theorem applied at the concrete current
time 400000000. -/
theorem lock_time_boundary_values_witness :
    lock_time_accepted 499999999 400000000 = false ∧
    lock_time_accepted 500000000 400000000 = true ∧
    lock_time_accepted 2147483647 400000000 = true ∧
    lock_time_accepted 2147483648 400000000 = false :=
  ⟨(lock_time_boundary_values 400000000).1 (by norm_num),
   (lock_time_boundary_values 400000000).2.1 (by norm_num),
   (lock_time_boundary_values 400000000).2.2.1 (by norm_num),
   (lock_time_boundary_values 400000000).2.2.2 (by norm_num)⟩

/-! ## C7: spend-side locktime gate -/

/-- C7: for a decoded redeem script of the expected shape (nonstandard
type, five asm elements, numeric first element lt), spend-side
validation succeeds exactly when the locktime has passed: it rejects
whenever now < lt and accepts whenever lt ≤ now. -/
theorem validate_script_spend_time_gate (info : ScriptInfo) (now lt : ℤ)
    (rest : List Tok) (hty : info.stype = "nonstandard")
    (hasm : info.asm = Tok.num lt :: rest) (hlen : info.asm.length = 5) :
    (validate_script info now true).isSome ↔ lt ≤ now := by
  rw [hasm] at hlen
  simp only [List.length_cons] at hlen
  simp only [validate_script, asmLocktime, hasm, hty, hlen, tokInt]
  norm_num
  split_ifs with h
  · simp
    omega
  · simp
    omega

/-- C7 witness: the spend gate at the sample script (locktime
1716000000) with the current time one second past the locktime. -/
theorem validate_script_spend_time_gate_witness :
    (validate_script sampleScriptInfo 1716000001 true).isSome ↔
      (1716000000 : ℤ) ≤ 1716000001 :=
  validate_script_spend_time_gate sampleScriptInfo 1716000001 1716000000 _ rfl rfl rfl

/-! ## C10: lock-side locktime window -/

/-- C10: for a decoded redeem script of the expected shape, lock-side
(non-spend) validation accepts exactly when now ≤ lt ≤ now + 365 days
(365 * 86400 seconds): it rejects a locktime already in the past and a
locktime more than 365 days ahead. -/
theorem validate_script_lock_time_window (info : ScriptInfo) (now lt : ℤ)
    (rest : List Tok) (hty : info.stype = "nonstandard")
    (hasm : info.asm = Tok.num lt :: rest) (hlen : info.asm.length = 5) :
    (validate_script info now false).isSome ↔
      (now ≤ lt ∧ lt ≤ now + 365 * 86400) := by
  rw [hasm] at hlen
  simp only [List.length_cons] at hlen
  simp only [validate_script, asmLocktime, hasm, hty, hlen, tokInt]
  norm_num
  split_ifs with h1 h2
  · simp; omega
  · simp; omega
  · simp; omega

/-- C10 witness: the lock-side window at the sample script (locktime
1716000000) with current time 1715000000, 10^6 seconds earlier. -/
theorem validate_script_lock_time_window_witness :
    (validate_script sampleScriptInfo 1715000000 false).isSome ↔
      ((1715000000 : ℤ) ≤ 1716000000 ∧
        (1716000000 : ℤ) ≤ 1715000000 + 365 * 86400) :=
  validate_script_lock_time_window sampleScriptInfo 1715000000 1716000000 _ rfl rfl rfl

/-! ## C1: transaction-level locktime of the lock transaction -/

/-- C1: a successfully built lock transaction carries the CLTV
locktime parsed from the redeem script as its transaction-level
locktime, not 0.  Concrete run: change address valid, one 0.02 BTC
UTXO, stake 0.01 BTC, fee rate 0.0002 BTC/kvB, current time
1715000000, redeem script locktime 1716000000; the build succeeds and
createrawtransaction is invoked with locktime 1716000000 (together
with input sequences below 0xffffffff, which makes the funding
transaction non-final until that time). -/
theorem build_transaction_locktime_equals_cltv :
    (build_transaction true [some 2000000] 1000000 "bc1qchange" [1, 2]
        sampleScriptInfo 20000 1715000000 false []).map RawTxParams.locktime
      = some 1716000000 ∧ (1716000000 : ℤ) ≠ 0 := by
  constructor
  · decide
  · decide

/-! ## C2: dust boundary of the change output -/

/-- C2 counterexample: with fee 6000 satoshi (rate 20000 sat/kvB) and
total input 1006546 satoshi against a 1000000 satoshi stake, the
remainder is exactly 546 satoshi and the built transaction has no
change output (outputs are the locked output and the data output
only), contradicting the claim that a remainder of exactly 546 is
included. -/
theorem build_transaction_change_546_dropped :
    calculate_fees 20000 = 6000 ∧
    (build_transaction true [some 1006546] 1000000 "bc1qchange" [1, 2]
        sampleScriptInfo 20000 1715000000 false []).map RawTxParams.outputs
      = some [TxOut.pay "bc1qlockaddr" 1000000, TxOut.data [1, 2]] := by
  constructor
  · decide
  · decide

/-- C2 amended: the change output is created exactly when the
remainder total - amount - fee strictly exceeds 546 satoshi, so a
remainder of 547 produces a change output while a remainder of 546
(or less) is folded into the fee: every successfully built lock
transaction has three outputs when 546 < remainder and two
otherwise. -/
theorem build_transaction_change_boundary (addrOk : Bool)
    (utxoInfos : List (Option ℤ)) (amountSats : ℤ) (changeAddress : String)
    (opReturnData : List ℕ) (info : ScriptInfo) (rateSats : ℕ) (now : ℤ)
    (use_p2sh : Bool) (inputs : List TxIn) (total : ℤ) (tx : RawTxParams)
    (hsum : sumUtxos utxoInfos = some total)
    (hbuild : build_transaction addrOk utxoInfos amountSats changeAddress
      opReturnData info rateSats now use_p2sh inputs = some tx) :
    tx.outputs.length =
      if 546 < total - amountSats - (calculate_fees rateSats : ℤ) then 3 else 2 := by
  simp only [build_transaction, hsum] at hbuild
  split_ifs at hbuild
  all_goals
    first
      | exact Option.noConfusion hbuild
      | (simp only [create_raw_tx] at hbuild
         cases hlt : asmLocktime info with
         | none => rw [hlt] at hbuild; exact Option.noConfusion hbuild
         | some lt =>
           rw [hlt] at hbuild
           simp only [Option.some.injEq] at hbuild
           subst hbuild
           simp
           split_ifs <;> omega)

/-- C2 witness: the boundary theorem applied to a concrete build whose
remainder is 547 satoshi (total 1006547, stake 1000000, fee 6000):
three outputs. -/
theorem build_transaction_change_boundary_witness :
    ∃ tx, build_transaction true [some 1006547] 1000000 "bc1qchange" [1, 2]
        sampleScriptInfo 20000 1715000000 false [] = some tx ∧
      tx.outputs.length =
        if (546 : ℤ) < 1006547 - 1000000 - (calculate_fees 20000 : ℤ) then 3 else 2 := by
  have hsome : (build_transaction true [some 1006547] 1000000 "bc1qchange" [1, 2]
      sampleScriptInfo 20000 1715000000 false []).isSome = true := by decide
  obtain ⟨tx, htx⟩ := Option.isSome_iff_exists.mp hsome
  exact ⟨tx, htx,
    build_transaction_change_boundary true [some 1006547] 1000000 "bc1qchange"
      [1, 2] sampleScriptInfo 20000 1715000000 false [] 1006547 tx rfl htx⟩

/-! ## C6: unlock fee-versus-value check -/

/-- C6 counterexample: the p2wsh spend signer invoked by the unlock
tool (spend.py) performs no fee-versus-value check: with a fully
conforming redeem script (4-byte locktime push 500000000, CLTV, DROP,
33-byte key push, CHECKSIG) and fee equal to the UTXO value (100000),
it still assembles and serializes a transaction -- with a zero-value
output -- rather than failing with no transaction bytes. -/
theorem sign_p2wsh_fee_equal_amount_builds :
    sign_p2wsh_cltv_with_script
      [ScriptElem.push [0, 101, 205, 29], ScriptElem.op OP_CHECKLOCKTIMEVERIFY,
       ScriptElem.op 0x75, ScriptElem.push (List.replicate 33 2), ScriptElem.op 0xac]
      "29722452aa" 0 "mmdest" 100000 100000
    = some { txid := "29722452aa", vout := 0, sequence := 0xFFFFFFFE,
             outValue := 0, outAddress := "mmdest", nLockTime := 500000000 } := by
  decide

/-- C6 amended: Transaction.build_spend_tx behaves as claimed -- it
fails with no transaction when the fee is not strictly below the UTXO
value and otherwise emits a single output paying value minus fee --
but the spend_p2wsh signing path used by the unlock tool performs no
such check and always produces a transaction paying amount - fee,
even when the fee reaches or exceeds the UTXO value. -/
theorem unlock_fee_check_by_path :
    (∀ (txid : String) (vout : ℕ) (utxoValue : ℚ) (info : ScriptInfo)
        (address : String) (feeRate : ℚ) (use_p2sh : Bool) (lt : ℤ) (rest : List Tok),
      info.asm = Tok.num lt :: rest →
      ((utxoValue ≤ feeRate * (if use_p2sh then (300 : ℚ) else 200) / 1000000 →
          build_spend_tx txid vout utxoValue info address feeRate use_p2sh = none) ∧
       (feeRate * (if use_p2sh then (300 : ℚ) else 200) / 1000000 < utxoValue →
          build_spend_tx txid vout utxoValue info address feeRate use_p2sh =
            some { txid := txid, vout := vout, sequence := 0xfffffffe,
                   outAddress := address,
                   outValue := utxoValue - feeRate * (if use_p2sh then (300 : ℚ) else 200) / 1000000,
                   locktime := lt }))) ∧
    (∀ (bs : List ℕ) (rest : List ScriptElem) (txid : String) (vout : ℕ)
        (address : String) (amount fee : ℤ),
      bs.length = 4 →
      sign_p2wsh_cltv_with_script
          (ScriptElem.push bs :: ScriptElem.op OP_CHECKLOCKTIMEVERIFY :: rest)
          txid vout address amount fee =
        some { txid := txid, vout := vout, sequence := 0xFFFFFFFE,
               outValue := amount - fee, outAddress := address,
               nLockTime := fromBytesLE bs }) := by
  constructor
  · intro txid vout utxoValue info address feeRate use_p2sh lt rest hasm
    constructor
    · intro h
      simp only [build_spend_tx, asmLocktime, hasm, tokInt]
      rw [if_pos (by linarith)]
    · intro h
      simp only [build_spend_tx, asmLocktime, hasm, tokInt]
      rw [if_neg (by linarith)]
  · intro bs rest txid vout address amount fee hlen
    simp [sign_p2wsh_cltv_with_script, parse_script_lockts, hlen,
      create_and_sign_p2wsh_tx]

/-- C6 witness: build_spend_tx on a 0.01 BTC UTXO with fee rate 50
BTC/kvB (fee exactly 0.01 BTC) fails, and the p2wsh signer at
amount 500, fee 100 builds the 400-satoshi spend. -/
theorem unlock_fee_check_by_path_witness :
    build_spend_tx "t" 0 (1/100) sampleScriptInfo "addr" 50 false = none ∧
    sign_p2wsh_cltv_with_script
        [ScriptElem.push [0, 0, 0, 0], ScriptElem.op OP_CHECKLOCKTIMEVERIFY]
        "t" 0 "d" 500 100
      = some { txid := "t", vout := 0, sequence := 0xFFFFFFFE, outValue := 400,
               outAddress := "d", nLockTime := fromBytesLE [0, 0, 0, 0] } := by
  constructor
  · exact (unlock_fee_check_by_path.1 "t" 0 (1/100) sampleScriptInfo "addr" 50
      false 1716000000 _ rfl).1 (by norm_num)
  · exact unlock_fee_check_by_path.2 [0, 0, 0, 0] [] "t" 0 "d" 500 100 rfl

/-! ## C8: template enforcement of redeem-script parsing -/

/-- C8 counterexample: validation accepts a five-element script whose
second element is OP_ADD rather than OP_CLTV, and the spend signer,
handed a script whose first push is 5 bytes long, does not fail -- it
signs a transaction with no locktime set (nLockTime 0).  Neither
non-conforming script is rejected. -/
theorem nonconforming_scripts_not_rejected :
    (validate_script scriptInfoWrongOpcode 700000000 true).isSome = true ∧
    sign_p2wsh_cltv_with_script
        [ScriptElem.push [1, 2, 3, 4, 5], ScriptElem.op OP_CHECKLOCKTIMEVERIFY,
         ScriptElem.op 0x75, ScriptElem.push (List.replicate 33 2), ScriptElem.op 0xac]
        "t" 0 "d" 500 100
      = some { txid := "t", vout := 0, sequence := 0xFFFFFFFE, outValue := 400,
               outAddress := "d", nLockTime := 0 } := by
  constructor
  · decide
  · decide

/-- C8 amended: script-shape enforcement as the code actually does it.
Validation rejects a script whose decoded asm does not have exactly
five elements or whose decoded type is not nonstandard (push widths
and opcode identities are never examined); the spend signers recover a
locktime exactly when the script starts with a 4-byte push followed by
OP_CHECKLOCKTIMEVERIFY, and otherwise proceed without one instead of
failing. -/
theorem script_shape_enforcement :
    (∀ (info : ScriptInfo) (now : ℤ) (spend : Bool),
      info.asm.length ≠ 5 → validate_script info now spend = none) ∧
    (∀ (info : ScriptInfo) (now : ℤ) (spend : Bool),
      info.stype ≠ "nonstandard" → validate_script info now spend = none) ∧
    (∀ (elems : List ScriptElem) (l : ℕ),
      parse_script_lockts elems = some (some l) ↔
        ∃ bs rest, elems = ScriptElem.push bs :: ScriptElem.op OP_CHECKLOCKTIMEVERIFY :: rest
          ∧ bs.length = 4 ∧ l = fromBytesLE bs) := by
  refine ⟨?_, ?_, ?_⟩
  · intro info now spend hlen
    simp [validate_script, hlen]
  · intro info now spend hty
    simp [validate_script, hty]
  · intro elems l
    cases elems with
    | nil => simp [parse_script_lockts]
    | cons e1 tl =>
      cases tl with
      | nil => cases e1 <;> simp [parse_script_lockts]
      | cons e2 rest =>
        cases e1 with
        | op c => simp [parse_script_lockts]
        | push bs =>
          simp only [parse_script_lockts]
          by_cases h : bs.length = 4 ∧ e2 = ScriptElem.op OP_CHECKLOCKTIMEVERIFY
          · obtain ⟨h4, he⟩ := h
            subst he
            rw [if_pos ⟨h4, rfl⟩]
            simp only [Option.some.injEq]
            constructor
            · intro hl
              exact ⟨bs, rest, rfl, h4, hl.symm⟩
            · rintro ⟨bs2, rest2, heq, h42, hl⟩
              simp only [List.cons.injEq, ScriptElem.push.injEq] at heq
              obtain ⟨hbs, -, -⟩ := heq
              subst hbs
              rw [hl]
          · rw [if_neg h]
            simp only [Option.some.injEq]
            constructor
            · intro hl
              exact absurd hl (by simp)
            · rintro ⟨bs2, rest2, heq, h42, hl⟩
              simp only [List.cons.injEq, ScriptElem.push.injEq] at heq
              obtain ⟨hbs, hop, -⟩ := heq
              exact absurd ⟨hbs ▸ h42, hop⟩ h

/-- C8 witness: the enforcement theorem applied to a one-element
script, a wrong-type script and the canonical 4-byte push form. -/
theorem script_shape_enforcement_witness :
    validate_script scriptInfoShort 0 true = none ∧
    validate_script scriptInfoWrongType 0 true = none ∧
    parse_script_lockts [ScriptElem.push [0, 0, 0, 0],
        ScriptElem.op OP_CHECKLOCKTIMEVERIFY] = some (some 0) := by
  refine ⟨?_, ?_, ?_⟩
  · exact script_shape_enforcement.1 _ 0 true (by decide)
  · exact script_shape_enforcement.2.1 _ 0 true (by decide)
  · exact (script_shape_enforcement.2.2 _ 0).mpr ⟨[0, 0, 0, 0], [], rfl, rfl, by decide⟩

/-! ## C4: payload encoding failure conditions and output length -/

/-- C4 counterexample: days = 366 lies outside (0, 365], yet encoding
a valid 20-byte address with amount 0.001 BTC and days = 366 succeeds
(the code only checks days > 0), contradicting the claimed failure
condition. -/
theorem construct_op_return_days_366_accepted :
    (construct_op_return true (List.replicate 40 1) 366 (1/1000)).isSome = true := by
  have h : ((1 : ℚ)/1000 * 1000) = ((1 : ℤ) : ℚ) := by norm_num
  simp only [construct_op_return, h, truncQ_intCast]
  decide

/-- C4 amended: encoding fails exactly when the 0x prefix is missing,
the address is not 20 bytes (40 hex digits), the truncated integer
amount_btc * 1000 is not positive, or days is not positive -- there is
no 365-day cap, no 4-byte representability check and no rejection of
non-integer amounts (they are truncated); and whenever it succeeds
with amount_btc * 1000 truncating to at most 0xFFFFFFFF and days at
most 0xFFFF, the payload is exactly 104 hex characters. -/
theorem construct_op_return_failure_and_length :
    (∀ (has0x : Bool) (addr : List ℕ) (days : ℤ) (amount : ℚ),
      construct_op_return has0x addr days amount = none ↔
        (has0x = false ∨ addr.length ≠ 40 ∨ truncQ (amount * 1000) ≤ 0 ∨ days ≤ 0)) ∧
    (∀ (has0x : Bool) (addr : List ℕ) (days : ℤ) (amount : ℚ) (p : List ℕ),
      construct_op_return has0x addr days amount = some p →
      truncQ (amount * 1000) ≤ 4294967295 → days ≤ 65535 → p.length = 104) := by
  constructor
  · intro has0x addr days amount
    unfold construct_op_return
    split_ifs with h1 h2 h3 h4 <;> simp_all
  · intro has0x addr days amount p hp hmb hdb
    unfold construct_op_return at hp
    split_ifs at hp
    all_goals
      first
        | exact Option.noConfusion hp
        | (simp only [Option.some.injEq] at hp
           subst hp
           have hm : (truncQ (amount * 1000)).toNat < 16 ^ 8 := by norm_num; omega
           have hd : days.toNat < 16 ^ 4 := by norm_num; omega
           have h8 := hexMin_length 8 (truncQ (amount * 1000)).toNat hm
           have hd4 := hexMin_length 4 days.toNat hd
           simp [List.length_append, magicDigits, chainIdDigits, contractDigits, h8, hd4]
           omega)

/-- C4 witness: the failure characterization at a missing 0x prefix
and the 104-character length at a concrete valid encoding (0.001 BTC,
30 days). -/
theorem construct_op_return_failure_and_length_witness :
    construct_op_return false (List.replicate 40 1) 30 (1/1000) = none ∧
    ∃ p, construct_op_return true (List.replicate 40 1) 30 (1/1000) = some p ∧
      p.length = 104 := by
  constructor
  · exact (construct_op_return_failure_and_length.1 false
      (List.replicate 40 1) 30 (1/1000)).mpr (Or.inl rfl)
  · have h : ((1 : ℚ)/1000 * 1000) = ((1 : ℤ) : ℚ) := by norm_num
    have hsome : (construct_op_return true (List.replicate 40 1) 30
        (1/1000)).isSome = true := by
      simp only [construct_op_return, h, truncQ_intCast]
      decide
    obtain ⟨p, hp⟩ := Option.isSome_iff_exists.mp hsome
    refine ⟨p, hp, construct_op_return_failure_and_length.2 true
      (List.replicate 40 1) 30 (1/1000) p hp ?_ (by norm_num)⟩
    rw [h, truncQ_intCast]
    norm_num

/-! ## C9: payload round trip -/

/-- C9 (decode modelled from the spec wire format): for every valid
input triple -- a 20-byte (40 hex digit) address, days in (0, 365] and
an amount whose value times 1000 is a positive integer k fitting in 4
bytes -- encoding succeeds and decoding the encoded payload returns
exactly that triple; and decode rejects any payload of the wrong
length or with the wrong magic. -/
theorem payload_roundtrip_and_decode_rejection :
    (∀ (addr : List ℕ) (days : ℤ) (amount : ℚ) (k : ℕ),
      addr.length = 40 → 0 < days → days ≤ 365 → 0 < k → k ≤ 4294967295 →
      amount * 1000 = (k : ℚ) →
      ∃ p, construct_op_return true addr days amount = some p ∧
        decode_op_return p = some (addr, days, amount)) ∧
    (∀ p : List ℕ, p.length ≠ 104 → decode_op_return p = none) ∧
    (∀ p : List ℕ, p.take 8 ≠ magicDigits → decode_op_return p = none) := by
  refine ⟨?_, ?_, ?_⟩
  · intro addr days amount k haddr hd0 hd365 hk0 hk4 hamt
    have hcast : ((k : ℕ) : ℚ) = (((k : ℕ) : ℤ) : ℚ) := by push_cast; ring
    have htr : truncQ (amount * 1000) = (k : ℤ) := by
      rw [hamt, hcast, truncQ_intCast]
    have hknn : ¬(truncQ (amount * 1000) ≤ 0) := by omega
    have hdnn : ¬(days ≤ 0) := by omega
    have htoNat : (truncQ (amount * 1000)).toNat = k := by omega
    have hp : construct_op_return true addr days amount =
        some (magicDigits ++ chainIdDigits ++ contractDigits ++ addr
          ++ hexMin 8 k ++ hexMin 4 days.toNat) := by
      unfold construct_op_return
      rw [if_neg (by simp), if_neg (by simp [haddr]), if_neg hknn, if_neg hdnn, htoNat]
    refine ⟨_, hp, ?_⟩
    -- lengths
    have hamtlen : (hexMin 8 k).length = 8 := hexMin_length 8 k (by norm_num; omega)
    have hdyslen : (hexMin 4 days.toNat).length = 4 :=
      hexMin_length 4 days.toNat (by norm_num; omega)
    have hA : (magicDigits ++ chainIdDigits ++ contractDigits).length = 52 := by decide
    have hP52 : magicDigits ++ chainIdDigits ++ contractDigits ++ addr
        ++ hexMin 8 k ++ hexMin 4 days.toNat
        = (magicDigits ++ chainIdDigits ++ contractDigits)
          ++ (addr ++ (hexMin 8 k ++ hexMin 4 days.toNat)) := by
      simp [List.append_assoc]
    have hP92 : magicDigits ++ chainIdDigits ++ contractDigits ++ addr
        ++ hexMin 8 k ++ hexMin 4 days.toNat
        = ((magicDigits ++ chainIdDigits ++ contractDigits) ++ addr)
          ++ (hexMin 8 k ++ hexMin 4 days.toNat) := by
      simp [List.append_assoc]
    have hP100 : magicDigits ++ chainIdDigits ++ contractDigits ++ addr
        ++ hexMin 8 k ++ hexMin 4 days.toNat
        = (((magicDigits ++ chainIdDigits ++ contractDigits) ++ addr) ++ hexMin 8 k)
          ++ hexMin 4 days.toNat := by
      simp [List.append_assoc]
    have hPlen : (magicDigits ++ chainIdDigits ++ contractDigits ++ addr
        ++ hexMin 8 k ++ hexMin 4 days.toNat).length = 104 := by
      simp [List.length_append, haddr, hamtlen, hdyslen, magicDigits,
        chainIdDigits, contractDigits]
    have htake8 : (magicDigits ++ chainIdDigits ++ contractDigits ++ addr
        ++ hexMin 8 k ++ hexMin 4 days.toNat).take 8 = magicDigits := by
      have : magicDigits ++ chainIdDigits ++ contractDigits ++ addr
          ++ hexMin 8 k ++ hexMin 4 days.toNat
          = magicDigits ++ (chainIdDigits ++ (contractDigits ++ (addr
            ++ (hexMin 8 k ++ hexMin 4 days.toNat)))) := by
        simp [List.append_assoc]
      rw [this, List.take_left' (by decide : (magicDigits : List ℕ).length = 8)]
    have hdrop52 : (magicDigits ++ chainIdDigits ++ contractDigits ++ addr
        ++ hexMin 8 k ++ hexMin 4 days.toNat).drop 52
        = addr ++ (hexMin 8 k ++ hexMin 4 days.toNat) := by
      rw [hP52, List.drop_left' hA]
    have hdrop92 : (magicDigits ++ chainIdDigits ++ contractDigits ++ addr
        ++ hexMin 8 k ++ hexMin 4 days.toNat).drop 92
        = hexMin 8 k ++ hexMin 4 days.toNat := by
      rw [hP92, List.drop_left' (by simp [List.length_append, magicDigits,
        chainIdDigits, contractDigits, haddr])]
    have hdrop100 : (magicDigits ++ chainIdDigits ++ contractDigits ++ addr
        ++ hexMin 8 k ++ hexMin 4 days.toNat).drop 100
        = hexMin 4 days.toNat := by
      rw [hP100, List.drop_left' (by simp [List.length_append, magicDigits,
        chainIdDigits, contractDigits, haddr, hamtlen])]
    unfold decode_op_return
    rw [if_neg (by simp only [hPlen]; decide), if_neg (by simp only [htake8]; decide)]
    rw [hdrop52, List.take_left' haddr, hdrop92, List.take_left' hamtlen,
      hdrop100]
    have htake4 : (hexMin 4 days.toNat).take 4 = hexMin 4 days.toNat := by
      have h := List.take_length (hexMin 4 days.toNat)
      rw [hdyslen] at h
      exact h
    rw [htake4, fromHex_hexMin, fromHex_hexMin]
    have hdays : ((days.toNat : ℕ) : ℤ) = days := Int.toNat_of_nonneg (by omega)
    have hamount : ((k : ℕ) : ℚ) / 1000 = amount := by
      rw [← hamt]
      field_simp
    rw [hdays, hamount]
  · intro p hlen
    unfold decode_op_return
    rw [if_pos hlen]
  · intro p hmagic
    unfold decode_op_return
    split_ifs <;> rfl

/-- C9 witness: the round trip at a concrete valid triple (address of
40 hex digits 3, 30 days, 0.01 BTC, so k = 10), and decode rejecting a
short payload and a wrong-magic payload. -/
theorem payload_roundtrip_and_decode_rejection_witness :
    (∃ p, construct_op_return true (List.replicate 40 3) 30 (1/100) = some p ∧
      decode_op_return p = some (List.replicate 40 3, 30, 1/100)) ∧
    decode_op_return [1, 2, 3] = none ∧
    decode_op_return (List.replicate 104 0) = none := by
  refine ⟨?_, ?_, ?_⟩
  · exact payload_roundtrip_and_decode_rejection.1 (List.replicate 40 3) 30 (1/100) 10
      (by simp) (by norm_num) (by norm_num) (by norm_num) (by norm_num) (by norm_num)
  · exact payload_roundtrip_and_decode_rejection.2.1 [1, 2, 3] (by decide)
  · exact payload_roundtrip_and_decode_rejection.2.2 (List.replicate 104 0) (by decide)

end BtcStake
